import Mathlib

/-!
Verification development for the PraiSearch mock search backend.

The program under study consists of three Vercel serverless handlers:
the enhanced search handler (`frontend/api/search.js`, the version with
keyword scoring), its companion suggest handler, and the feedback handler.
JavaScript strings are modelled as lists of UTF-16 code units (`List Char`;
the corpus is ASCII, where code units and characters coincide).  All string
primitives used by the handlers (lowercasing, substring containment,
splitting on a separator, substring/slice, trim-emptiness) are translated
below.
-/

/-- A JavaScript string, as a sequence of code units. -/
abbrev JStr := List Char

/-- JavaScript `String.prototype.toLowerCase`, restricted to the per-code-unit
case mapping (the corpus and all concrete queries are ASCII). -/
def lowerStr (s : JStr) : JStr := s.map Char.toLower

/-- Does the string begin with the given pattern (`String.prototype.startsWith`)? -/
def startsWithL : JStr → JStr → Bool
  | _, [] => true
  | [], _ :: _ => false
  | c :: cs, p :: ps => c == p && startsWithL cs ps

/-- JavaScript `String.prototype.includes`: the pattern occurs as a contiguous
substring (the empty pattern occurs in every string). -/
def jsIncludes : JStr → JStr → Bool
  | [], pat => pat.isEmpty
  | c :: cs, pat => startsWithL (c :: cs) pat || jsIncludes cs pat

/-- JavaScript `String.prototype.split` with a single-character separator:
splits at every occurrence of `sep`, keeping empty fragments, and returns
`[""]` on the empty string. -/
def splitOnChar (sep : Char) : JStr → List JStr
  | [] => [[]]
  | c :: cs =>
    if c == sep then [] :: splitOnChar sep cs
    else
      match splitOnChar sep cs with
      | [] => [[c]]
      | t :: ts => (c :: t) :: ts

/-- Splitting at every whitespace code unit.  This follows the specification
wording "splitting on whitespace"; the source itself splits only on the
space character (see `queryWords`). -/
def splitOnWhitespace : JStr → List JStr
  | [] => [[]]
  | c :: cs =>
    if c.isWhitespace then [] :: splitOnWhitespace cs
    else
      match splitOnWhitespace cs with
      | [] => [[c]]
      | t :: ts => (c :: t) :: ts

/-- A corpus entry of the mock search database (`mockResults` in the source).
The `score` field is the authoring-time weight (`score: 1.0` on every entry);
it is never read by the ranking logic. -/
structure Document where
  title : JStr
  content : JStr
  url : JStr
  score : ℚ
  deriving DecidableEq

/-- A `Document` together with the per-query relevance score that the search
handler attaches via `{ ...result, searchScore: score }`. -/
structure ScoredDocument where
  title : JStr
  content : JStr
  url : JStr
  score : ℚ
  searchScore : ℕ
  deriving DecidableEq, Inhabited

/-- The eight-entry mock corpus of the enhanced search handler, copied verbatim
from `frontend/api/search.js`. -/
def mockResults : List Document :=
  [ { title := "Blockchain Technology".data
    , content := "A blockchain is a decentralized, distributed ledger technology that maintains a continuously growing list of records, called blocks, which are linked and secured using cryptography. Each block contains a cryptographic hash of the previous block, a timestamp, and transaction data. Blockchain technology enables secure, transparent, and tamper-resistant record-keeping without the need for a central authority. It's the underlying technology behind cryptocurrencies like Bitcoin and Ethereum, but has applications in supply chain management, digital identity, smart contracts, and many other fields.".data
    , url := "https://en.wikipedia.org/wiki/Blockchain".data
    , score := 1 }
  , { title := "Artificial Intelligence".data
    , content := "Artificial Intelligence (AI) is the simulation of human intelligence processes by machines, especially computer systems. These processes include learning (the acquisition of information and rules for using the information), reasoning (using rules to reach approximate or definite conclusions), and self-correction. AI applications include expert systems, natural language processing, speech recognition, and machine vision. Modern AI techniques include machine learning, deep learning, neural networks, and natural language processing. AI is used in various fields such as healthcare, finance, transportation, and entertainment.".data
    , url := "https://en.wikipedia.org/wiki/Artificial_intelligence".data
    , score := 1 }
  , { title := "Machine Learning".data
    , content := "Machine Learning is a subset of artificial intelligence that focuses on the development of algorithms and statistical models that enable computer systems to improve their performance on a specific task through experience. Machine learning algorithms build mathematical models based on training data to make predictions or decisions without being explicitly programmed to perform the task. Types include supervised learning, unsupervised learning, and reinforcement learning. Applications include image recognition, recommendation systems, fraud detection, and predictive analytics.".data
    , url := "https://en.wikipedia.org/wiki/Machine_learning".data
    , score := 1 }
  , { title := "Cloud Computing".data
    , content := "Cloud computing is the on-demand availability of computer system resources, especially data storage and computing power, without direct active management by the user. The term is generally used to describe data centers available to many users over the Internet. Large clouds, predominant today, often have functions distributed over multiple locations from central servers. Cloud computing relies on sharing of resources to achieve coherence and economies of scale. Types include Infrastructure as a Service (IaaS), Platform as a Service (PaaS), and Software as a Service (SaaS).".data
    , url := "https://en.wikipedia.org/wiki/Cloud_computing".data
    , score := 1 }
  , { title := "Cybersecurity".data
    , content := "Cybersecurity is the practice of protecting systems, networks, and programs from digital attacks. These cyberattacks are usually aimed at accessing, changing, or destroying sensitive information; extorting money from users; or interrupting normal business processes. Implementing effective cybersecurity measures is particularly challenging today because there are more devices than people, and attackers are becoming more innovative. Key areas include network security, application security, information security, operational security, disaster recovery, and end-user education.".data
    , url := "https://en.wikipedia.org/wiki/Computer_security".data
    , score := 1 }
  , { title := "Internet of Things (IoT)".data
    , content := "The Internet of Things describes the network of physical objects—'things'—that are embedded with sensors, software, and other technologies for the purpose of connecting and exchanging data with other devices and systems over the Internet. These devices range from ordinary household objects to sophisticated industrial tools. IoT enables objects to be sensed or controlled remotely across existing network infrastructure, creating opportunities for more direct integration of the physical world into computer-based systems. Applications include smart homes, wearable devices, connected cars, and industrial IoT.".data
    , url := "https://en.wikipedia.org/wiki/Internet_of_things".data
    , score := 1 }
  , { title := "Data Science".data
    , content := "Data science is an interdisciplinary field that uses scientific methods, processes, algorithms, and systems to extract knowledge and insights from structured and unstructured data. Data science is related to data mining, machine learning, and big data. It combines domain expertise, programming skills, and knowledge of mathematics and statistics to extract meaningful insights from data. The data science process typically includes data collection, cleaning, exploration, analysis, visualization, and interpretation. Tools commonly used include Python, R, SQL, Tableau, and various machine learning frameworks.".data
    , url := "https://en.wikipedia.org/wiki/Data_science".data
    , score := 1 }
  , { title := "Quantum Computing".data
    , content := "Quantum computing is a type of computation that harnesses the collective properties of quantum states, such as superposition, interference, and entanglement, to perform calculations. Unlike classical computers that use bits (0 or 1), quantum computers use quantum bits (qubits) that can exist in multiple states simultaneously. This allows quantum computers to potentially solve certain problems exponentially faster than classical computers. Applications include cryptography, optimization problems, drug discovery, and financial modeling. Current challenges include maintaining quantum coherence and error correction.".data
    , url := "https://en.wikipedia.org/wiki/Quantum_computing".data
    , score := 1 }
  ]

/-- The token list of the source: lowercase the query, split it on the space
character, and keep the words longer than 2 code units. -/
def queryWords (q : JStr) : List JStr :=
  (splitOnChar ' ' (lowerStr q)).filter (fun w => 2 < w.length)

/-- The per-document score accumulation of the enhanced search handler:
10 for the whole lowercased query occurring in the lowercased title, 5 for it
occurring in the lowercased content, then a `forEach` over `queryWords` adding
3 per word found in the title and 1 per word found in the content. -/
def docScore (q : JStr) (d : Document) : ℕ :=
  let titleLower := lowerStr d.title
  let contentLower := lowerStr d.content
  let ql := lowerStr q
  let base := (if jsIncludes titleLower ql then 10 else 0) +
              (if jsIncludes contentLower ql then 5 else 0)
  (queryWords q).foldl
    (fun s w =>
      s + (if jsIncludes titleLower w then 3 else 0) +
          (if jsIncludes contentLower w then 1 else 0))
    base

/-- The spread copy plus the fresh score that the handler returns per document. -/
def scoreDoc (q : JStr) (d : Document) : ScoredDocument :=
  ⟨d.title, d.content, d.url, d.score, docScore q d⟩

/-- The scored corpus: the map of the scoring closure over the corpus. -/
def searchResults (q : JStr) : List ScoredDocument :=
  mockResults.map (scoreDoc q)

/-- The ordering used by `sort((a, b) => b.searchScore - a.searchScore)`:
`a` may precede `b` exactly when the score of `a` is at least that of `b`. -/
def scoreGe (a b : ScoredDocument) : Prop := b.searchScore ≤ a.searchScore

instance : DecidableRel scoreGe := fun _ _ => Nat.decLe _ _

instance : IsTotal ScoredDocument scoreGe :=
  ⟨fun a b => Nat.le_total b.searchScore a.searchScore⟩

instance : IsTrans ScoredDocument scoreGe :=
  ⟨fun _ _ _ hab hbc => Nat.le_trans hbc hab⟩

/-- The result pipeline of the source: keep the documents with positive
searchScore, sort them descending by searchScore, and take the top 5.  The
sort of ECMAScript 2019 arrays is stable, and a stable sort under a total
preorder comparator has a unique result, so it is modelled by the stable
`List.insertionSort` under `scoreGe`. -/
def filteredResults (q : JStr) : List ScoredDocument :=
  (((searchResults q).filter (fun r => 0 < r.searchScore)).insertionSort scoreGe).take 5

/-- The derived answer string: a fixed prefix plus `content.substring(0, 200)`
of the top result and a trailing ellipsis, or the fixed not-found string. -/
def answerOf (q : JStr) : JStr :=
  match filteredResults q with
  | [] => "No relevant information found for your query.".data
  | r :: _ => "Based on the available information: ".data ++ r.content.take 200 ++ "...".data

/-- The response payload of the search handler that depends on the query
(the `privacy_log` field is a fixed constant and is omitted). -/
structure RankResponse where
  results : List ScoredDocument
  answer : JStr
  deriving DecidableEq

/-- The core of the enhanced search handler for a defined query string. -/
def rank (q : JStr) : RankResponse := ⟨filteredResults q, answerOf q⟩

/-- The fifteen-entry suggestion catalog (`baseSuggestions` in the source). -/
def baseSuggestions : List JStr :=
  [ "What is artificial intelligence?".data
  , "How does machine learning work?".data
  , "What is blockchain technology?".data
  , "Explain cloud computing".data
  , "What is cybersecurity?".data
  , "How does quantum computing work?".data
  , "What is data science?".data
  , "Internet of things applications".data
  , "AI applications in healthcare".data
  , "Machine learning algorithms".data
  , "Blockchain use cases".data
  , "Cloud computing benefits".data
  , "Cybersecurity best practices".data
  , "Data science tools".data
  , "IoT devices examples".data
  ]

/-- The five fallback templates, instantiated with the original,
non-normalized partial query (`queryBased` in the source). -/
def queryBased (q : JStr) : List JStr :=
  [ "What is ".data ++ q ++ "?".data
  , "How does ".data ++ q ++ " work?".data
  , "Explain ".data ++ q
  , q ++ " applications".data
  , q ++ " benefits".data
  ]

/-- The core of the suggest handler for a defined query string: the length
guard, the case-insensitive catalog filter capped at 6, and the fallback
`suggestions.push(...queryBased.slice(0, 3))` when the filter is empty. -/
def suggestions (q : JStr) : List JStr :=
  if q.length < 2 then []
  else if ((baseSuggestions.filter
      (fun s => jsIncludes (lowerStr s) (lowerStr q))).take 6).isEmpty
  then (queryBased q).take 3
  else (baseSuggestions.filter (fun s => jsIncludes (lowerStr s) (lowerStr q))).take 6

/-- HTTP methods distinguished by the handlers. -/
inductive Method
  | get
  | post
  | put
  | patch
  | delete
  | options
  deriving DecidableEq

/-- A runtime error of the JavaScript handler (an uncaught exception). -/
inductive JsError
  | typeError
  deriving DecidableEq

/-- The enhanced search handler at the HTTP boundary.  `query` is the `query`
field destructured from the request body; a missing field is `none`
(JavaScript `undefined`).  On the POST path the source immediately evaluates
`query.toLowerCase()`, which throws a `TypeError` when `query` is undefined. -/
def searchHandler (m : Method) (query : Option JStr) :
    Except JsError (ℕ × Option RankResponse) :=
  if m = Method.options then Except.ok (200, none)
  else if m ≠ Method.post then Except.ok (405, none)
  else
    match query with
    | none => Except.error JsError.typeError
    | some q => Except.ok (200, some (rank q))

/-- The suggest handler at the HTTP boundary.  It checks only for OPTIONS;
every other method proceeds to the suggestion logic.  A missing `query`
parameter hits the `!query` guard and yields an empty list. -/
def suggestHandler (m : Method) (query : Option JStr) : ℕ × Option (List JStr) :=
  if m = Method.options then (200, none)
  else
    match query with
    | none => (200, some [])
    | some q => (200, some (suggestions q))

/-- The set of code units removed by `String.prototype.trim` per ECMA-262:
WhiteSpace (TAB U+0009, VT U+000B, FF U+000C, SP U+0020, NBSP U+00A0,
ZWNBSP U+FEFF, and the Space_Separator category U+1680, U+2000..U+200A,
U+202F, U+205F, U+3000) together with the LineTerminator set (LF U+000A,
CR U+000D, LS U+2028, PS U+2029). -/
def jsWhitespaceChar (c : Char) : Bool :=
  c.toNat == 0x09 || c.toNat == 0x0A || c.toNat == 0x0B || c.toNat == 0x0C ||
  c.toNat == 0x0D || c.toNat == 0x20 || c.toNat == 0xA0 || c.toNat == 0x1680 ||
  (0x2000 ≤ c.toNat && c.toNat ≤ 0x200A) ||
  c.toNat == 0x2028 || c.toNat == 0x2029 || c.toNat == 0x202F ||
  c.toNat == 0x205F || c.toNat == 0x3000 || c.toNat == 0xFEFF

/-- The feedback handler at the HTTP boundary (from the api source shipped
with `SearchResultItem.jsx`).  `!feedback || !feedback.trim()` rejects a
missing, empty, or whitespace-only feedback string with 400;
`feedback.trim()` is empty exactly when every code unit of `feedback` is in
the `trim` whitespace set. -/
def feedbackHandler (m : Method) (feedback : Option JStr) : ℕ :=
  if m = Method.options then 200
  else if m ≠ Method.post then 405
  else
    match feedback with
    | none => 400
    | some f => if f.all jsWhitespaceChar then 400 else 200

/-- Forgets the computed `searchScore`, recovering the underlying corpus entry. -/
def eraseScore (r : ScoredDocument) : Document :=
  ⟨r.title, r.content, r.url, r.score⟩

/-- The scoring formula exactly as the claim states it, with `queryWords`
obtained by splitting the lowercased query on whitespace.  The source instead
splits on the space character only; this definition follows the claim wording
and is compared with `docScore`. -/
def claimScoreWhitespace (q : JStr) (d : Document) : ℕ :=
  (if jsIncludes (lowerStr d.title) (lowerStr q) then 10 else 0) +
  (if jsIncludes (lowerStr d.content) (lowerStr q) then 5 else 0) +
  (((splitOnWhitespace (lowerStr q)).filter (fun w => 2 < w.length)).map
    (fun w =>
      (if jsIncludes (lowerStr d.title) w then 3 else 0) +
      (if jsIncludes (lowerStr d.content) w then 1 else 0))).sum

/-- The scoring formula in the claim shape, but with the tokenization the
source actually performs: splitting on the space character. -/
def claimScoreSpace (q : JStr) (d : Document) : ℕ :=
  (if jsIncludes (lowerStr d.title) (lowerStr q) then 10 else 0) +
  (if jsIncludes (lowerStr d.content) (lowerStr q) then 5 else 0) +
  (((splitOnChar ' ' (lowerStr q)).filter (fun w => 2 < w.length)).map
    (fun w =>
      (if jsIncludes (lowerStr d.title) w then 3 else 0) +
      (if jsIncludes (lowerStr d.content) w then 1 else 0))).sum

/-- The suggest behaviour exactly as the C6 claim states it: empty below the
length threshold, otherwise the case-insensitive catalog filter capped at 6
(no fallback branch). -/
def claimSuggestOnlyFilter (q : JStr) : List JStr :=
  if q.length < 2 then []
  else (baseSuggestions.filter (fun s => jsIncludes (lowerStr s) (lowerStr q))).take 6

/-! ### Helper lemmas -/

open List

set_option maxRecDepth 100000
set_option maxHeartbeats 1000000

/-- The sequential `forEach` accumulation of word bonuses equals the sum of the
per-word contributions. -/
theorem score_foldl_eq_sum (tl cl : JStr) (ws : List JStr) (b : ℕ) :
    ws.foldl
      (fun s w =>
        s + (if jsIncludes tl w then 3 else 0) + (if jsIncludes cl w then 1 else 0)) b
      = b + (ws.map
          (fun w =>
            (if jsIncludes tl w then 3 else 0) +
            (if jsIncludes cl w then 1 else 0))).sum := by
  induction ws generalizing b with
  | nil => simp
  | cons w ws ih =>
    simp only [List.foldl_cons, List.map_cons, List.sum_cons, ih]
    omega

/-- Scoring only attaches `searchScore`; forgetting it recovers the corpus. -/
theorem map_eraseScore_searchResults (q : JStr) :
    (searchResults q).map eraseScore = mockResults := by
  unfold searchResults
  rw [List.map_map]
  have h : eraseScore ∘ scoreDoc q = id := funext fun d => rfl
  rw [h, List.map_id]

/-- Stability of the descending sort: the subsequence of documents having any
fixed score is untouched by `insertionSort scoreGe`. -/
theorem filter_score_insertionSort (s : ℕ) (l : List ScoredDocument) :
    (l.insertionSort scoreGe).filter (fun r => r.searchScore == s)
      = l.filter (fun r => r.searchScore == s) := by
  have hmem : ∀ x ∈ l.filter (fun r => r.searchScore == s), (x.searchScore == s) = true :=
    fun x hx => (List.mem_filter.mp hx).2
  have hpw : (l.filter (fun r => r.searchScore == s)).Pairwise scoreGe := by
    apply List.pairwise_of_forall_mem_list
    intro a ha b hb
    have ha' : a.searchScore = s := beq_iff_eq.mp (List.mem_filter.mp ha).2
    have hb' : b.searchScore = s := beq_iff_eq.mp (List.mem_filter.mp hb).2
    unfold scoreGe
    omega
  have hsub : l.filter (fun r => r.searchScore == s) <+ l.insertionSort scoreGe :=
    List.sublist_insertionSort hpw (List.filter_sublist l)
  have hsub2 : l.filter (fun r => r.searchScore == s) <+
      (l.insertionSort scoreGe).filter (fun r => r.searchScore == s) := by
    have h := List.Sublist.filter (fun r => r.searchScore == s) hsub
    rwa [List.filter_eq_self.mpr hmem] at h
  have hlen : (l.filter (fun r => r.searchScore == s)).length
      = ((l.insertionSort scoreGe).filter (fun r => r.searchScore == s)).length :=
    (((List.perm_insertionSort scoreGe l).filter _).length_eq).symm
  exact (hsub2.eq_of_length hlen).symm

/-! ### Claims -/

/-- C1 (counterexample): the claim computes `queryWords` by splitting on
whitespace, but the source splits on the space character only.  For the query
consisting of the words machine and learning separated by a tab, the claim
formula gives the Machine Learning document 8 points while the code gives 0. -/
theorem c1_counterexample :
    claimScoreWhitespace ("machine\tlearning").data (mockResults.get ⟨2, by decide⟩) = 8 ∧
    docScore ("machine\tlearning").data (mockResults.get ⟨2, by decide⟩) = 0 ∧
    (8 : ℕ) ≠ 0 := by
  refine ⟨by decide, by decide, by decide⟩

/-- C1 (amended): for every query string and every document, the computed
searchScore equals 10 for the lowercased title containing the lowercased
query, plus 5 for the content containing it, plus 3 and 1 word bonuses over
`queryWords`, where `queryWords` splits the lowercased query on the space
character (not on general whitespace) and drops tokens of length at most 2. -/
theorem c1_score_formula (q : JStr) (d : Document) :
    docScore q d = claimScoreSpace q d := by
  unfold docScore claimScoreSpace queryWords
  rw [score_foldl_eq_sum]

/-- C2: for every query, the result list has length at most 5, is sorted
non-increasingly by searchScore, and every entry scores strictly above 0. -/
theorem c2_results_shape (q : JStr) :
    (filteredResults q).length ≤ 5 ∧
    (filteredResults q).Pairwise scoreGe ∧
    (filteredResults q).all (fun r => decide (0 < r.searchScore)) = true := by
  refine ⟨List.length_take_le 5 _, ?_, ?_⟩
  · exact List.Pairwise.sublist (List.take_sublist 5 _)
      (List.sorted_insertionSort scoreGe _)
  · rw [List.all_eq_true]
    intro r hr
    exact (List.mem_filter.mp
      ((List.perm_insertionSort scoreGe _).mem_iff.mp (List.take_subset _ _ hr))).2

/-- C3: the descending sort is stable — for any query and any score value,
the result entries carrying that score form a sublist of the scored corpus
(hence appear in original corpus order), so equal-score documents keep their
relative corpus order and the output is deterministic. -/
theorem c3_stable_ties (q : JStr) (s : ℕ) :
    (filteredResults q).filter (fun r => r.searchScore == s) <+ searchResults q ∧
    ((filteredResults q).filter (fun r => r.searchScore == s)).map eraseScore <+
      mockResults := by
  have h1 : (filteredResults q).filter (fun r => r.searchScore == s) <+
      (((searchResults q).filter
        (fun r => 0 < r.searchScore)).insertionSort scoreGe).filter
        (fun r => r.searchScore == s) :=
    List.Sublist.filter _ (List.take_sublist 5 _)
  rw [filter_score_insertionSort] at h1
  have h2 : (filteredResults q).filter (fun r => r.searchScore == s) <+
      searchResults q :=
    h1.trans ((List.filter_sublist _).trans (List.filter_sublist _))
  refine ⟨h2, ?_⟩
  have h3 := h2.map eraseScore
  rwa [map_eraseScore_searchResults q] at h3

/-- C4: for the empty query every document scores exactly 15 (10 + 5, empty
substring checks; `queryWords` is empty), no document is filtered out, the
stable sort keeps corpus order, and the result is the first five corpus
documents, each with searchScore 15 (hence at least 15). -/
theorem c4_empty_query :
    filteredResults "".data =
      (mockResults.take 5).map
        (fun d => ⟨d.title, d.content, d.url, d.score, 15⟩) ∧
    (filteredResults "".data).all (fun r => decide (15 ≤ r.searchScore)) = true := by
  refine ⟨by decide, by decide⟩

/-- C5: the answer is the fixed prefix plus the first 200 code units of the
top result content and a trailing ellipsis when results are non-empty, and
the fixed not-found string when they are empty. -/
theorem c5_answer_format (q : JStr) :
    (filteredResults q = [] →
      answerOf q = "No relevant information found for your query.".data) ∧
    (∀ r rs, filteredResults q = r :: rs →
      answerOf q =
        "Based on the available information: ".data ++ r.content.take 200 ++
          "...".data) := by
  constructor
  · intro h
    unfold answerOf
    rw [h]
  · intro r rs h
    unfold answerOf
    rw [h]

/-- C5 (witness): the query zzzznonsense matches no document, giving the empty
result list and the literal not-found answer; the query blockchain has a
non-empty result list and a templated answer. -/
theorem c5_answer_format_witness :
    filteredResults ("zzzznonsense").data = [] ∧
    answerOf ("zzzznonsense").data =
      "No relevant information found for your query.".data ∧
    answerOf ("blockchain").data =
      "Based on the available information: ".data ++
        ((filteredResults ("blockchain").data).headI).content.take 200 ++
        "...".data := by
  have hempty : filteredResults ("zzzznonsense").data = [] := by decide
  have hbc : filteredResults ("blockchain").data =
      (filteredResults ("blockchain").data).headI ::
        (filteredResults ("blockchain").data).tail := by decide
  exact ⟨hempty, (c5_answer_format _).1 hempty, (c5_answer_format _).2 _ _ hbc⟩

/-- C6 (counterexample): for the no-match query xyzzy the claim predicts the
empty filtered list, but the code answers with three templated fallback
suggestions instead. -/
theorem c6_counterexample :
    claimSuggestOnlyFilter ("xyzzy").data = [] ∧
    suggestions ("xyzzy").data =
      ["What is xyzzy?".data, "How does xyzzy work?".data, "Explain xyzzy".data] ∧
    suggestions ("xyzzy").data ≠ claimSuggestOnlyFilter ("xyzzy").data := by
  refine ⟨by decide, by decide, by decide⟩

/-- C6 (amended): a partial query shorter than 2 code units yields the empty
list; otherwise, provided at least one catalog entry matches, the result is
the case-insensitive catalog filter in catalog order capped at 6 (when no
entry matches, templated fallback suggestions are returned instead). -/
theorem c6_filter_behaviour (q : JStr) :
    (q.length < 2 → suggestions q = []) ∧
    (2 ≤ q.length →
      baseSuggestions.filter (fun s => jsIncludes (lowerStr s) (lowerStr q)) ≠ [] →
      suggestions q =
        (baseSuggestions.filter (fun s => jsIncludes (lowerStr s) (lowerStr q))).take 6) := by
  constructor
  · intro h
    unfold suggestions
    rw [if_pos h]
  · intro h2 hne
    unfold suggestions
    rw [if_neg (by omega : ¬ q.length < 2)]
    have htake : (baseSuggestions.filter
        (fun s => jsIncludes (lowerStr s) (lowerStr q))).take 6 ≠ [] := by
      rw [Ne, List.take_eq_nil_iff]
      rintro (h6 | hnil)
      · exact absurd h6 (by omega)
      · exact hne hnil
    rw [if_neg (by simpa [List.isEmpty_iff] using htake)]

/-- C6 (witness): the query ai is two code units long, matches catalog
entries, and receives exactly the catalog filter capped at 6. -/
theorem c6_filter_behaviour_witness :
    suggestions ("ai").data =
      (baseSuggestions.filter
        (fun s => jsIncludes (lowerStr s) (lowerStr ("ai").data))).take 6 :=
  (c6_filter_behaviour _).2 (by decide) (by decide)

/-- C7 (counterexample): for the no-match query xenotransplantation the code
returns 3 fallback suggestions, and the fourth template (the applications
one) is not among them — so the claim that only the fifth template is
excluded by the truncation to 3 is false. -/
theorem c7_counterexample :
    baseSuggestions.filter
      (fun s => jsIncludes (lowerStr s) (lowerStr ("xenotransplantation").data)) = [] ∧
    (suggestions ("xenotransplantation").data).length = 3 ∧
    ("xenotransplantation applications").data ∉ suggestions ("xenotransplantation").data := by
  refine ⟨by decide, by decide, by decide⟩

/-- C7 (amended): for every partial query of length at least 2 matching no
catalog entry, the result is exactly the three fallback suggestions obtained
by substituting the original, non-normalized query into the FIRST THREE of
the five fixed templates; the fourth (applications) and fifth (benefits)
templates are both excluded by the truncation to 3. -/
theorem c7_fallback (q : JStr) (h2 : 2 ≤ q.length)
    (hnil : baseSuggestions.filter (fun s => jsIncludes (lowerStr s) (lowerStr q)) = []) :
    suggestions q =
      ["What is ".data ++ q ++ "?".data,
       "How does ".data ++ q ++ " work?".data,
       "Explain ".data ++ q] := by
  unfold suggestions
  rw [if_neg (by omega : ¬ q.length < 2), hnil]
  rfl

/-- C7 (witness): concrete fallback behaviour for xenotransplantation. -/
theorem c7_fallback_witness :
    suggestions ("xenotransplantation").data =
      ["What is ".data ++ ("xenotransplantation").data ++ "?".data,
       "How does ".data ++ ("xenotransplantation").data ++ " work?".data,
       "Explain ".data ++ ("xenotransplantation").data] :=
  c7_fallback _ (by decide) (by decide)

/-- C8: the ranking core never fails for any defined string query — the POST
path returns 200 with the rank payload for every string — but a missing or
undefined query is NOT treated as the empty string: the source immediately
evaluates query.toLowerCase(), which throws a TypeError. -/
theorem c8_undefined_query_crash :
    searchHandler Method.post none = Except.error JsError.typeError ∧
    ∀ q : JStr, searchHandler Method.post (some q) = Except.ok (200, some (rank q)) := by
  exact ⟨rfl, fun q => rfl⟩

/-- C9 (counterexample): a POST request to the suggest endpoint is answered
with status 200, not 405 — the suggest handler has no method guard. -/
theorem c9_counterexample :
    (suggestHandler Method.post (some ("ai").data)).1 = 200 ∧
    (suggestHandler Method.post (some ("ai").data)).1 ≠ 405 := by
  refine ⟨rfl, by decide⟩

/-- C9 (amended): the search and feedback endpoints return 200 on success and
405 on any non-OPTIONS, non-POST method, the feedback endpoint returns 400 on
a missing, empty, or whitespace-only feedback string, and the suggest
endpoint — which has no method guard — answers every non-OPTIONS method,
whatever it is, with status 200. -/
theorem c9_status_codes :
    (∀ q, searchHandler Method.options q = Except.ok (200, none)) ∧
    (∀ m q, m ≠ Method.options → m ≠ Method.post →
      searchHandler m q = Except.ok (405, none)) ∧
    (∀ q : JStr, searchHandler Method.post (some q) = Except.ok (200, some (rank q))) ∧
    (∀ f, feedbackHandler Method.options f = 200) ∧
    (∀ m f, m ≠ Method.options → m ≠ Method.post → feedbackHandler m f = 405) ∧
    feedbackHandler Method.post none = 400 ∧
    (∀ f : JStr, f.all jsWhitespaceChar = true →
      feedbackHandler Method.post (some f) = 400) ∧
    (∀ f : JStr, f.all jsWhitespaceChar = false →
      feedbackHandler Method.post (some f) = 200) ∧
    (∀ m q, m ≠ Method.options → (suggestHandler m q).1 = 200) := by
  refine ⟨fun q => rfl, ?_, fun q => rfl, fun f => rfl, ?_, rfl, ?_, ?_, ?_⟩
  · intro m q h1 h2
    unfold searchHandler
    rw [if_neg h1, if_pos h2]
  · intro m f h1 h2
    unfold feedbackHandler
    rw [if_neg h1, if_pos h2]
  · intro f h
    unfold feedbackHandler
    rw [if_neg (by decide : ¬ Method.post = Method.options),
      if_neg (by simp : ¬ Method.post ≠ Method.post)]
    simp [h]
  · intro f h
    unfold feedbackHandler
    rw [if_neg (by decide : ¬ Method.post = Method.options),
      if_neg (by simp : ¬ Method.post ≠ Method.post)]
    simp [h]
  · intro m q h1
    unfold suggestHandler
    rw [if_neg h1]
    cases q <;> rfl

/-- C9 (witness): concrete statuses for each branch of the amended claim. -/
theorem c9_status_codes_witness :
    searchHandler Method.options none = Except.ok (200, none) ∧
    searchHandler Method.put none = Except.ok (405, none) ∧
    searchHandler Method.post (some ("blockchain").data) =
      Except.ok (200, some (rank ("blockchain").data)) ∧
    feedbackHandler Method.put none = 405 ∧
    feedbackHandler Method.post (some (" ").data) = 400 ∧
    feedbackHandler Method.post (some ("\x0B\x0C").data) = 400 ∧
    feedbackHandler Method.post (some ("great tool").data) = 200 ∧
    (suggestHandler Method.delete (some ("ai").data)).1 = 200 :=
  ⟨c9_status_codes.1 none,
   c9_status_codes.2.1 Method.put none (by decide) (by decide),
   c9_status_codes.2.2.1 _,
   c9_status_codes.2.2.2.2.1 Method.put none (by decide) (by decide),
   c9_status_codes.2.2.2.2.2.2.1 _ (by decide),
   c9_status_codes.2.2.2.2.2.2.1 _ (by decide),
   c9_status_codes.2.2.2.2.2.2.2.1 _ (by decide),
   c9_status_codes.2.2.2.2.2.2.2.2 Method.delete _ (by decide)⟩

/-- C10: scoring builds a fresh copy — for every query, dropping the attached
searchScore from the scored corpus gives back exactly the static corpus
(title, content, url and the authoring-time score field all unchanged), and
every returned result is such a copy of some corpus entry. -/
theorem c10_frame_preservation (q : JStr) :
    (searchResults q).map eraseScore = mockResults ∧
    (filteredResults q).all (fun r => decide (eraseScore r ∈ mockResults)) = true := by
  refine ⟨map_eraseScore_searchResults q, ?_⟩
  rw [List.all_eq_true]
  intro r hr
  have h1 : r ∈ (searchResults q).filter (fun r => 0 < r.searchScore) :=
    (List.perm_insertionSort scoreGe _).mem_iff.mp (List.take_subset _ _ hr)
  have h2 : r ∈ searchResults q := List.mem_of_mem_filter h1
  have h3 : eraseScore r ∈ (searchResults q).map eraseScore :=
    List.mem_map_of_mem _ h2
  rw [map_eraseScore_searchResults q] at h3
  exact decide_eq_true h3
